import Mathlib

/-!
# Verification of the feeder-data-dashboard synthetic telemetry generators

Shallow embedding of the two FastAPI demo services of the repository
(`backend_cors_fix_weather_api.py`, `backend_cors_fix_solar_api.py`,
`weather_api_example.py`) and their CORS configuration.

Modelling conventions:
* Timestamps are integers counting minutes on a naive clock
  (`datetime` instants); `timedelta(minutes=m)` is addition of `m`,
  `timedelta(hours=h)` is addition of `60 * h`, and `.hour` is
  `hourOf` below (floor-division and Euclidean remainder match
  Python's `//` and `%` on a nonnegative or negative instant alike).
* Float quantities are rationals.  Python's `round(x, d)` is modelled
  by `roundTo1` / `roundTo2` (round-to-nearest at `d` decimals; the
  tie-breaking rule is irrelevant to every verified property).
* `math.sin((hour - 6) * math.pi / 12)` is transcendental, so the
  generators take the table of its values as a parameter
  `sinv : ℤ → ℚ` (applied to the hour); no verified property depends
  on the numeric value of the sine.
* Each call to `random.uniform(a, b)` is one field of a per-index
  jitter record supplied by a `draws : ℕ → _` parameter; the
  predicate `inRange` states the uniform bounds `a ≤ j ≤ b` the
  library guarantees.
-/

/-- Python `round(x, 1)` on rationals: round to nearest tenth. -/
def roundTo1 (q : ℚ) : ℚ := ((round (q * 10) : ℤ) : ℚ) / 10

/-- Python `round(x, 2)` on rationals: round to nearest hundredth. -/
def roundTo2 (q : ℚ) : ℚ := ((round (q * 100) : ℤ) : ℚ) / 100

/-- The `.hour` attribute of a naive `datetime` held as minutes: floor
division by 60 then remainder modulo 24, as Python computes it. -/
def hourOf (t : ℤ) : ℤ := (t.ediv 60).emod 24

/-- One record of the weather services' JSON arrays
(`WeatherData` model of `weather_api_example.py`; the dict literal of
`generate_weather_data` has the same keys). -/
structure WeatherRecord where
  id : ℕ
  timestamp : ℤ
  temperature : ℚ
  relative_humidity_2m : ℚ
  wind_speed_10m : ℚ
  pressure_msl : ℚ
  cloud_cover : ℚ
  direct_normal_irradiance : ℚ
  latitude : ℚ
  longitude : ℚ
  data_type : String
deriving Repr, DecidableEq

/-- The nested `weather_conditions` object of a solar prediction. -/
structure SolarConditions where
  temperature : ℚ
  relative_humidity_2m : ℚ
  wind_speed_10m : ℚ
  cloud_cover : ℚ
  direct_normal_irradiance : ℚ
deriving Repr, DecidableEq

/-- The nested `location` object. -/
structure Location where
  latitude : ℚ
  longitude : ℚ
deriving Repr, DecidableEq

/-- One record of the solar service's JSON arrays.  The realtime
variant has no `forecast_type` key (`none`); the forecast variant
carries `some "hourly"`. -/
structure SolarPredictionRecord where
  id : ℕ
  timestamp : ℤ
  predicted_power_kw : ℚ
  weather_conditions : SolarConditions
  location : Location
  forecast_type : Option String
deriving Repr, DecidableEq

/-- The six `random.uniform` draws made per index by
`generate_weather_data` of `backend_cors_fix_weather_api.py`. -/
structure WeatherJitter where
  temp_j : ℚ
  hum_j : ℚ
  wind_j : ℚ
  press_j : ℚ
  cloud_j : ℚ
  irr_j : ℚ
deriving Repr, DecidableEq

/-- The uniform bounds of the weather generator's draws:
`uniform(-2,2)`, `uniform(-15,15)`, `uniform(-1,3)`, `uniform(-10,10)`,
`uniform(0,80)`, `uniform(-50,50)`. -/
def WeatherJitter.inRange (j : WeatherJitter) : Prop :=
  -2 ≤ j.temp_j ∧ j.temp_j ≤ 2 ∧ -15 ≤ j.hum_j ∧ j.hum_j ≤ 15 ∧
  -1 ≤ j.wind_j ∧ j.wind_j ≤ 3 ∧ -10 ≤ j.press_j ∧ j.press_j ≤ 10 ∧
  0 ≤ j.cloud_j ∧ j.cloud_j ≤ 80 ∧ -50 ≤ j.irr_j ∧ j.irr_j ≤ 50

/-- The five `random.uniform` draws made per index by the two solar
generators of `backend_cors_fix_solar_api.py`. -/
structure SolarJitter where
  power_j : ℚ
  temp_j : ℚ
  hum_j : ℚ
  wind_j : ℚ
  cloud_j : ℚ
deriving Repr, DecidableEq

/-- Uniform bounds of `generate_realtime_predictions`:
`uniform(-0.5,0.5)`, `uniform(-2,2)`, `uniform(-15,15)`,
`uniform(-1,2)`, `uniform(0,60)`. -/
def SolarJitter.realtimeInRange (j : SolarJitter) : Prop :=
  -(1/2) ≤ j.power_j ∧ j.power_j ≤ 1/2 ∧ -2 ≤ j.temp_j ∧ j.temp_j ≤ 2 ∧
  -15 ≤ j.hum_j ∧ j.hum_j ≤ 15 ∧ -1 ≤ j.wind_j ∧ j.wind_j ≤ 2 ∧
  0 ≤ j.cloud_j ∧ j.cloud_j ≤ 60

/-- Uniform bounds of `generate_forecast_predictions`:
`uniform(-0.8,0.8)`, `uniform(-1.5,1.5)`, `uniform(-12,12)`,
`uniform(-0.5,2)`, `uniform(0,50)`. -/
def SolarJitter.forecastInRange (j : SolarJitter) : Prop :=
  -(4/5) ≤ j.power_j ∧ j.power_j ≤ 4/5 ∧ -(3/2) ≤ j.temp_j ∧ j.temp_j ≤ 3/2 ∧
  -12 ≤ j.hum_j ∧ j.hum_j ≤ 12 ∧ -(1/2) ≤ j.wind_j ∧ j.wind_j ≤ 2 ∧
  0 ≤ j.cloud_j ∧ j.cloud_j ≤ 50

/-- The six `random.uniform` draws made per index by
`generate_sample_weather_data` of `weather_api_example.py`. -/
structure ExampleJitter where
  temp_j : ℚ
  hum_j : ℚ
  wind_j : ℚ
  press_j : ℚ
  cloud_j : ℚ
  irr_j : ℚ
deriving Repr, DecidableEq

/-- Uniform bounds of the example generator's draws:
`uniform(-3,3)`, `uniform(-20,20)`, `uniform(-2,5)`, `uniform(-10,10)`,
`uniform(0,100)`, `uniform(-50,50)`. -/
def ExampleJitter.inRange (j : ExampleJitter) : Prop :=
  -3 ≤ j.temp_j ∧ j.temp_j ≤ 3 ∧ -20 ≤ j.hum_j ∧ j.hum_j ≤ 20 ∧
  -2 ≤ j.wind_j ∧ j.wind_j ≤ 5 ∧ -10 ≤ j.press_j ∧ j.press_j ≤ 10 ∧
  0 ≤ j.cloud_j ∧ j.cloud_j ≤ 100 ∧ -50 ≤ j.irr_j ∧ j.irr_j ≤ 50

/-- `generate_weather_data` of `backend_cors_fix_weather_api.py`:
for each `i` in `range(limit)`, a record at
`now - timedelta(minutes=(limit - i - 1) * 5)`. -/
def generate_weather_data (sinv : ℤ → ℚ) (draws : ℕ → WeatherJitter)
    (now limit : ℤ) : List WeatherRecord :=
  (List.range limit.toNat).map (fun (i : ℕ) =>
    let timestamp : ℤ := now - (limit - (i : ℤ) - 1) * 5
    let hour : ℤ := hourOf timestamp
    let j := draws i
    let base_temp : ℚ := 25 + sinv hour * 8
    let temperature : ℚ := base_temp + j.temp_j
    let humidity : ℚ := max 30 (min 90 (60 + j.hum_j))
    let wind_speed : ℚ := max 0 (3 + j.wind_j)
    let pressure : ℚ := 1013 + j.press_j
    let cloud_cover : ℚ := j.cloud_j
    let irradiance : ℚ :=
      if 6 ≤ hour ∧ hour ≤ 18 then
        max 0 (800 * sinv hour * ((100 - cloud_cover) / 100) + j.irr_j)
      else 0
    { id := i + 1
      timestamp := timestamp
      temperature := roundTo1 temperature
      relative_humidity_2m := roundTo1 humidity
      wind_speed_10m := roundTo1 wind_speed
      pressure_msl := roundTo1 pressure
      cloud_cover := roundTo1 cloud_cover
      direct_normal_irradiance := roundTo1 irradiance
      latitude := 6.86666
      longitude := 80.01667
      data_type := "forecast" })

/-- `generate_realtime_predictions` of `backend_cors_fix_solar_api.py`. -/
def generate_realtime_predictions (sinv : ℤ → ℚ) (draws : ℕ → SolarJitter)
    (now limit : ℤ) : List SolarPredictionRecord :=
  (List.range limit.toNat).map (fun (i : ℕ) =>
    let timestamp : ℤ := now - (limit - (i : ℤ) - 1) * 5
    let hour : ℤ := hourOf timestamp
    let j := draws i
    let predicted_power : ℚ :=
      if 6 ≤ hour ∧ hour ≤ 18 then max 0 (sinv hour * 5 + j.power_j) else 0
    let temp : ℚ := 25 + sinv hour * 8 + j.temp_j
    let humidity : ℚ := max 30 (min 90 (60 + j.hum_j))
    { id := i + 1
      timestamp := timestamp
      predicted_power_kw := roundTo2 predicted_power
      weather_conditions :=
        { temperature := roundTo1 temp
          relative_humidity_2m := roundTo1 humidity
          wind_speed_10m := roundTo1 (3 + j.wind_j)
          cloud_cover := roundTo1 j.cloud_j
          direct_normal_irradiance :=
            roundTo1 (if 6 ≤ hour ∧ hour ≤ 18 then max 0 (800 * sinv hour) else 0) }
      location := { latitude := 6.86666, longitude := 80.01667 }
      forecast_type := none })

/-- `generate_forecast_predictions` of `backend_cors_fix_solar_api.py`:
for each `i` in `range(limit)`, a record at `now + timedelta(hours=i)`. -/
def generate_forecast_predictions (sinv : ℤ → ℚ) (draws : ℕ → SolarJitter)
    (now limit : ℤ) : List SolarPredictionRecord :=
  (List.range limit.toNat).map (fun (i : ℕ) =>
    let timestamp : ℤ := now + 60 * (i : ℤ)
    let hour : ℤ := hourOf timestamp
    let j := draws i
    let predicted_power : ℚ :=
      if 6 ≤ hour ∧ hour ≤ 18 then max 0 (sinv hour * 6 + j.power_j) else 0
    let temp : ℚ := 26 + sinv hour * 7 + j.temp_j
    let humidity : ℚ := max 35 (min 85 (55 + j.hum_j))
    { id := i + 1
      timestamp := timestamp
      predicted_power_kw := roundTo2 predicted_power
      weather_conditions :=
        { temperature := roundTo1 temp
          relative_humidity_2m := roundTo1 humidity
          wind_speed_10m := roundTo1 (5/2 + j.wind_j)
          cloud_cover := roundTo1 j.cloud_j
          direct_normal_irradiance :=
            roundTo1 (if 6 ≤ hour ∧ hour ≤ 18 then max 0 (850 * sinv hour) else 0) }
      location := { latitude := 6.86666, longitude := 80.01667 }
      forecast_type := some "hourly" })

/-- `generate_sample_weather_data` of `weather_api_example.py`:
for each `i` in `range(limit)`, a record at
`base_time + timedelta(hours=i)`; no sine is used, the diurnal shape is
`abs(12 - hour)`. -/
def generate_sample_weather_data (draws : ℕ → ExampleJitter)
    (base_time limit : ℤ) (data_type : String) : List WeatherRecord :=
  (List.range limit.toNat).map (fun (i : ℕ) =>
    let timestamp : ℤ := base_time + 60 * (i : ℤ)
    let hour : ℤ := hourOf timestamp
    let j := draws i
    let base_temp : ℚ := 20 + 10 * |12 - (hour : ℚ)| / 12
    let temperature : ℚ := base_temp + j.temp_j
    let humidity : ℚ := 60 + j.hum_j
    let wind_speed : ℚ := 5 + j.wind_j
    let pressure : ℚ := 1013 + j.press_j
    let cloud_cover : ℚ := j.cloud_j
    let irradiance0 : ℚ :=
      if 6 ≤ hour ∧ hour ≤ 18 then
        1000 * (1 - cloud_cover / 100) * (1 - |12 - (hour : ℚ)| / 6) + j.irr_j
      else 0
    let irradiance : ℚ := max 0 irradiance0
    { id := i + 1
      timestamp := timestamp
      temperature := roundTo1 temperature
      relative_humidity_2m := roundTo1 (max 0 (min 100 humidity))
      wind_speed_10m := roundTo1 (max 0 wind_speed)
      pressure_msl := roundTo1 pressure
      cloud_cover := roundTo1 (max 0 (min 100 cloud_cover))
      direct_normal_irradiance := roundTo1 irradiance
      latitude := 6.86666
      longitude := 80.01667
      data_type := data_type })

/-- `get_weather_data` of `backend_cors_fix_weather_api.py`: the query
parameter is declared `Query(20, ge=1, le=100)`, so the framework's
standard validation answers HTTP 422 outside `[1, 100]` and the handler
returns the generator's output verbatim inside it. -/
def get_weather_data (sinv : ℤ → ℚ) (draws : ℕ → WeatherJitter)
    (now limit : ℤ) : Except ℕ (List WeatherRecord) :=
  if 1 ≤ limit ∧ limit ≤ 100 then
    Except.ok (generate_weather_data sinv draws now limit)
  else Except.error 422

/-- `get_weather_data_alt` of `backend_cors_fix_weather_api.py` (route
`/weather-data`): same `Query(20, ge=1, le=100)` validation; the
`data_type` query parameter is accepted but never used. -/
def get_weather_data_alt (sinv : ℤ → ℚ) (draws : ℕ → WeatherJitter)
    (now limit : ℤ) (data_type : String) : Except ℕ (List WeatherRecord) :=
  if 1 ≤ limit ∧ limit ≤ 100 then
    Except.ok (generate_weather_data sinv draws now limit)
  else Except.error 422

/-- `get_weather_data` of `weather_api_example.py` (route
`/weather/data`): the parameter is a bare `limit: int = 20` with no
range constraint, so every integer reaches the generator and the
response is always a success. -/
def example_get_weather_data (draws : ℕ → ExampleJitter)
    (now limit : ℤ) : Except ℕ (List WeatherRecord) :=
  Except.ok (generate_sample_weather_data draws now limit "forecast")

/-- CORS middleware configuration as passed to `app.add_middleware`. -/
structure CORSConfig where
  allow_origins : List String
  allow_credentials : Bool
  allow_methods : List String
  allow_headers : List String
deriving Repr, DecidableEq

/-- The CORS configuration of `backend_cors_fix_weather_api.py`. -/
def weather_cors : CORSConfig :=
  { allow_origins :=
      ["http://localhost:5173", "http://127.0.0.1:5173",
       "http://localhost:3000", "http://localhost:5174",
       "http://localhost:8080"]
    allow_credentials := true
    allow_methods := ["GET", "POST", "PUT", "DELETE", "OPTIONS"]
    allow_headers := ["*"] }

/-- The CORS configuration of `backend_cors_fix_solar_api.py`
(textually identical allow-list). -/
def solar_cors : CORSConfig :=
  { allow_origins :=
      ["http://localhost:5173", "http://127.0.0.1:5173",
       "http://localhost:3000", "http://localhost:5174",
       "http://localhost:8080"]
    allow_credentials := true
    allow_methods := ["GET", "POST", "PUT", "DELETE", "OPTIONS"]
    allow_headers := ["*"] }

/-- Modelled from the spec: the CORS middleware is an external
framework collaborator (its code is not in this repository).  Per the
spec, an `OPTIONS` preflight whose `Origin` is in the allow-list
succeeds and the response's `Access-Control-Allow-Origin` reflects
that origin; other origins get no CORS grant. -/
def preflightResponse (cfg : CORSConfig) (origin : String) :
    Option (ℕ × String) :=
  if origin ∈ cfg.allow_origins then some (200, origin) else none

/-! ## Helper lemmas about rounding -/

lemma round_rat_mono {a b : ℚ} (h : a ≤ b) : round a ≤ round b := by
  rw [round_eq, round_eq]
  exact Int.floor_le_floor (by linarith)

lemma roundTo1_nonneg {q : ℚ} (h : 0 ≤ q) : 0 ≤ roundTo1 q := by
  unfold roundTo1
  have h1 : (0 : ℤ) ≤ round (q * 10) := by
    have := round_rat_mono (by linarith : (0 : ℚ) ≤ q * 10)
    simpa using this
  have h2 : (0 : ℚ) ≤ ((round (q * 10) : ℤ) : ℚ) := by exact_mod_cast h1
  linarith

lemma roundTo2_nonneg {q : ℚ} (h : 0 ≤ q) : 0 ≤ roundTo2 q := by
  unfold roundTo2
  have h1 : (0 : ℤ) ≤ round (q * 100) := by
    have := round_rat_mono (by linarith : (0 : ℚ) ≤ q * 100)
    simpa using this
  have h2 : (0 : ℚ) ≤ ((round (q * 100) : ℤ) : ℚ) := by exact_mod_cast h1
  linarith

lemma le_roundTo1 {q : ℚ} (n : ℤ) (h : (n : ℚ) ≤ q) : (n : ℚ) ≤ roundTo1 q := by
  unfold roundTo1
  rw [le_div_iff₀ (by norm_num : (0 : ℚ) < 10)]
  have h1 : round ((n : ℚ) * 10) ≤ round (q * 10) :=
    round_rat_mono (by linarith)
  have h2 : round ((n : ℚ) * 10) = n * 10 := by
    have hcast : ((n : ℚ) * 10) = ((n * 10 : ℤ) : ℚ) := by push_cast; ring
    rw [hcast, round_intCast]
  rw [h2] at h1
  exact_mod_cast h1

lemma roundTo1_le {q : ℚ} (n : ℤ) (h : q ≤ (n : ℚ)) : roundTo1 q ≤ (n : ℚ) := by
  unfold roundTo1
  rw [div_le_iff₀ (by norm_num : (0 : ℚ) < 10)]
  have h1 : round (q * 10) ≤ round ((n : ℚ) * 10) :=
    round_rat_mono (by linarith)
  have h2 : round ((n : ℚ) * 10) = n * 10 := by
    have hcast : ((n : ℚ) * 10) = ((n * 10 : ℤ) : ℚ) := by push_cast; ring
    rw [hcast, round_intCast]
  rw [h2] at h1
  exact_mod_cast h1

lemma roundTo1_zero : roundTo1 0 = 0 := by
  simp [roundTo1]

lemma roundTo2_zero : roundTo2 0 = 0 := by
  simp [roundTo2]

/-! ## Claim theorems -/

/-- C1: for every `limit` in `[1, 100]`, each of the three
`backend_cors_fix` generators returns exactly `limit` records, and the
`id` of the record at 0-based index `i` is `i + 1`, so ids run
`1..limit` in order. -/
theorem c1_length_and_ids (sinv : ℤ → ℚ) (wd : ℕ → WeatherJitter)
    (sd fd : ℕ → SolarJitter) (now limit : ℤ)
    (h1 : 1 ≤ limit) (h2 : limit ≤ 100) :
    (((generate_weather_data sinv wd now limit).length : ℤ) = limit ∧
      ∀ (i : ℕ) (h : i < (generate_weather_data sinv wd now limit).length),
        ((generate_weather_data sinv wd now limit).get ⟨i, h⟩).id = i + 1) ∧
    (((generate_realtime_predictions sinv sd now limit).length : ℤ) = limit ∧
      ∀ (i : ℕ) (h : i < (generate_realtime_predictions sinv sd now limit).length),
        ((generate_realtime_predictions sinv sd now limit).get ⟨i, h⟩).id = i + 1) ∧
    (((generate_forecast_predictions sinv fd now limit).length : ℤ) = limit ∧
      ∀ (i : ℕ) (h : i < (generate_forecast_predictions sinv fd now limit).length),
        ((generate_forecast_predictions sinv fd now limit).get ⟨i, h⟩).id = i + 1) := by
  refine ⟨⟨?_, ?_⟩, ⟨?_, ?_⟩, ⟨?_, ?_⟩⟩
  · simp [generate_weather_data]; omega
  · intro i h
    simp [generate_weather_data]
  · simp [generate_realtime_predictions]; omega
  · intro i h
    simp [generate_realtime_predictions]
  · simp [generate_forecast_predictions]; omega
  · intro i h
    simp [generate_forecast_predictions]

/-- Witness for C1 at `limit = 2`, `now = 0`, zero sine table and zero
jitter draws. -/
theorem c1_witness :
    ((1 : ℤ) ≤ 2 ∧ (2 : ℤ) ≤ 100) ∧
    ((generate_weather_data (fun _ => 0) (fun _ => ⟨0, 0, 0, 0, 0, 0⟩) 0 2).length : ℤ) = 2 ∧
    ((generate_realtime_predictions (fun _ => 0) (fun _ => ⟨0, 0, 0, 0, 0⟩) 0 2).length : ℤ) = 2 ∧
    ((generate_forecast_predictions (fun _ => 0) (fun _ => ⟨0, 0, 0, 0, 0⟩) 0 2).length : ℤ) = 2 :=
  ⟨⟨by decide, by decide⟩,
   (c1_length_and_ids (fun _ => 0) (fun _ => ⟨0, 0, 0, 0, 0, 0⟩)
      (fun _ => ⟨0, 0, 0, 0, 0⟩) (fun _ => ⟨0, 0, 0, 0, 0⟩) 0 2
      (by decide) (by decide)).1.1,
   (c1_length_and_ids (fun _ => 0) (fun _ => ⟨0, 0, 0, 0, 0, 0⟩)
      (fun _ => ⟨0, 0, 0, 0, 0⟩) (fun _ => ⟨0, 0, 0, 0, 0⟩) 0 2
      (by decide) (by decide)).2.1.1,
   (c1_length_and_ids (fun _ => 0) (fun _ => ⟨0, 0, 0, 0, 0, 0⟩)
      (fun _ => ⟨0, 0, 0, 0, 0⟩) (fun _ => ⟨0, 0, 0, 0, 0⟩) 0 2
      (by decide) (by decide)).2.2.1⟩

/-- C2 counterexample: the claim also covers
`generate_sample_weather_data` of `weather_api_example.py` (the
`/weather/data` handler of that variant), whose timestamps go forward
in 1-hour steps.  At `now = 0`, `limit = 2`, the actual timestamps are
`[0, 60]` while the claimed formula `now - (limit - i - 1) * 5` gives
`-5` at index 0 and `0` at index 1. -/
theorem c2_counterexample :
    (generate_sample_weather_data (fun _ => ⟨0, 0, 0, 0, 0, 0⟩) 0 2 "forecast").map
        (fun r => r.timestamp) = [0, 60] ∧
    (0 : ℤ) ≠ 0 - ((2 : ℤ) - 0 - 1) * 5 ∧
    (60 : ℤ) ≠ 0 - ((2 : ℤ) - 1 - 1) * 5 := by
  refine ⟨?_, by decide, by decide⟩
  decide

/-- C2 (amended): in the `backend_cors_fix` weather and realtime solar
generators the record at index `i` has timestamp
`now - (limit - i - 1) * 5` minutes, so consecutive timestamps ascend
in exact 5-minute steps and the last one equals `now`; the
`weather_api_example` generator instead produces `now + i` hours. -/
theorem c2_amended_timestamps (sinv : ℤ → ℚ) (wd : ℕ → WeatherJitter)
    (sd : ℕ → SolarJitter) (ed : ℕ → ExampleJitter) (now limit : ℤ)
    (h1 : 1 ≤ limit) (h2 : limit ≤ 100) :
    (∀ (i : ℕ) (h : i < (generate_weather_data sinv wd now limit).length),
      ((generate_weather_data sinv wd now limit).get ⟨i, h⟩).timestamp =
        now - (limit - (i : ℤ) - 1) * 5) ∧
    (∀ (i : ℕ) (h : i < (generate_realtime_predictions sinv sd now limit).length),
      ((generate_realtime_predictions sinv sd now limit).get ⟨i, h⟩).timestamp =
        now - (limit - (i : ℤ) - 1) * 5) ∧
    (∀ (i : ℕ) (h : i + 1 < (generate_weather_data sinv wd now limit).length)
        (h' : i < (generate_weather_data sinv wd now limit).length),
      ((generate_weather_data sinv wd now limit).get ⟨i + 1, h⟩).timestamp =
        ((generate_weather_data sinv wd now limit).get ⟨i, h'⟩).timestamp + 5) ∧
    (∀ (h : limit.toNat - 1 < (generate_weather_data sinv wd now limit).length),
      ((generate_weather_data sinv wd now limit).get ⟨limit.toNat - 1, h⟩).timestamp = now) ∧
    (∀ (i : ℕ) (h : i + 1 < (generate_realtime_predictions sinv sd now limit).length)
        (h' : i < (generate_realtime_predictions sinv sd now limit).length),
      ((generate_realtime_predictions sinv sd now limit).get ⟨i + 1, h⟩).timestamp =
        ((generate_realtime_predictions sinv sd now limit).get ⟨i, h'⟩).timestamp + 5) ∧
    (∀ (h : limit.toNat - 1 < (generate_realtime_predictions sinv sd now limit).length),
      ((generate_realtime_predictions sinv sd now limit).get
          ⟨limit.toNat - 1, h⟩).timestamp = now) ∧
    (∀ (i : ℕ) (h : i < (generate_sample_weather_data ed now limit "forecast").length),
      ((generate_sample_weather_data ed now limit "forecast").get ⟨i, h⟩).timestamp =
        now + 60 * (i : ℤ)) := by
  refine ⟨?_, ?_, ?_, ?_, ?_, ?_, ?_⟩
  · intro i h
    simp [generate_weather_data]
  · intro i h
    simp [generate_realtime_predictions]
  · intro i h h'
    simp only [generate_weather_data, List.get_eq_getElem, List.getElem_map,
      List.getElem_range]
    push_cast
    ring
  · intro h
    simp only [generate_weather_data, List.get_eq_getElem, List.getElem_map,
      List.getElem_range]
    omega
  · intro i h h'
    simp only [generate_realtime_predictions, List.get_eq_getElem, List.getElem_map,
      List.getElem_range]
    push_cast
    ring
  · intro h
    simp only [generate_realtime_predictions, List.get_eq_getElem, List.getElem_map,
      List.getElem_range]
    omega
  · intro i h
    simp [generate_sample_weather_data]

/-- Witness for the amended C2 at `limit = 2`, `now = 0`: index-0
weather timestamp is `-5` and the last one is `0 = now`. -/
theorem c2_witness :
    ((1 : ℤ) ≤ 2 ∧ (2 : ℤ) ≤ 100) ∧
    ((generate_weather_data (fun _ => 0) (fun _ => ⟨0, 0, 0, 0, 0, 0⟩) 0 2).get
        ⟨0, by decide⟩).timestamp = 0 - ((2 : ℤ) - 0 - 1) * 5 ∧
    ((generate_weather_data (fun _ => 0) (fun _ => ⟨0, 0, 0, 0, 0, 0⟩) 0 2).get
        ⟨(2 : ℤ).toNat - 1, by decide⟩).timestamp = 0 :=
  ⟨⟨by decide, by decide⟩,
   (c2_amended_timestamps (fun _ => 0) (fun _ => ⟨0, 0, 0, 0, 0, 0⟩)
      (fun _ => ⟨0, 0, 0, 0, 0⟩) (fun _ => ⟨0, 0, 0, 0, 0, 0⟩) 0 2
      (by decide) (by decide)).1 0 (by decide),
   (c2_amended_timestamps (fun _ => 0) (fun _ => ⟨0, 0, 0, 0, 0, 0⟩)
      (fun _ => ⟨0, 0, 0, 0, 0⟩) (fun _ => ⟨0, 0, 0, 0, 0, 0⟩) 0 2
      (by decide) (by decide)).2.2.2.1 (by decide)⟩

/-- C6 counterexample: the claim quantifies over every `/weather/data`
request, but in the `weather_api_example.py` variant the handler has a
bare `limit: int` with no range constraint, so `limit = 0` is not
rejected: the response is a success carrying an (empty) record array,
not a 422-equivalent error. -/
theorem c6_counterexample :
    example_get_weather_data (fun _ => ⟨0, 0, 0, 0, 0, 0⟩) 0 0 = Except.ok [] := by
  rfl

/-- C6 (amended): in the `backend_cors_fix` weather variant, any
`limit` outside `[1, 100]` is rejected with a 422 client error on both
`/weather/data` and `/weather-data` and no record array is produced,
while an in-range `limit` returns the generator output verbatim; the
generator itself performs no validation (it is total, yielding
`max(limit, 0)` records for every integer).  The `weather_api_example`
variant performs no limit validation and always responds with
success. -/
theorem c6_amended_validation (sinv : ℤ → ℚ) (wd : ℕ → WeatherJitter)
    (ed : ℕ → ExampleJitter) (now limit : ℤ) :
    (limit < 1 ∨ 100 < limit →
      get_weather_data sinv wd now limit = Except.error 422 ∧
      get_weather_data_alt sinv wd now limit "forecast" = Except.error 422) ∧
    (1 ≤ limit → limit ≤ 100 →
      get_weather_data sinv wd now limit =
        Except.ok (generate_weather_data sinv wd now limit)) ∧
    (generate_weather_data sinv wd now limit).length = limit.toNat ∧
    ∃ l, example_get_weather_data ed now limit = Except.ok l := by
  refine ⟨?_, ?_, ?_, ⟨_, rfl⟩⟩
  · intro h
    have hn : ¬(1 ≤ limit ∧ limit ≤ 100) := by omega
    exact ⟨by simp [get_weather_data, hn], by simp [get_weather_data_alt, hn]⟩
  · intro hl hu
    simp [get_weather_data, hl, hu]
  · simp [generate_weather_data]

/-- Witness for the amended C6 at `limit = 0`: the validated variant
rejects it with 422. -/
theorem c6_witness :
    ((0 : ℤ) < 1 ∨ (100 : ℤ) < 0) ∧
    get_weather_data (fun _ => 0) (fun _ => ⟨0, 0, 0, 0, 0, 0⟩) 0 0 =
      Except.error 422 :=
  ⟨Or.inl (by decide),
   ((c6_amended_validation (fun _ => 0) (fun _ => ⟨0, 0, 0, 0, 0, 0⟩)
       (fun _ => ⟨0, 0, 0, 0, 0, 0⟩) 0 0).1 (Or.inl (by decide))).1⟩

/-- C8: `http://localhost:5173` is in both services' CORS allow-lists,
both set `allow_credentials`, and a preflight carrying that `Origin`
succeeds with `Access-Control-Allow-Origin` reflecting the origin. -/
theorem c8_preflight_localhost :
    "http://localhost:5173" ∈ weather_cors.allow_origins ∧
    "http://localhost:5173" ∈ solar_cors.allow_origins ∧
    weather_cors.allow_credentials = true ∧
    solar_cors.allow_credentials = true ∧
    preflightResponse weather_cors "http://localhost:5173" =
      some (200, "http://localhost:5173") ∧
    preflightResponse solar_cors "http://localhost:5173" =
      some (200, "http://localhost:5173") := by
  refine ⟨?_, ?_, rfl, rfl, ?_, ?_⟩ <;>
    simp [weather_cors, solar_cors, preflightResponse]

/-- C9: for every `limit ≤ 0`, all four generators return the empty
list (the loop over `range(limit)` is vacuous, nothing raises), and in
particular the unvalidated `weather_api_example` `/weather/data`
endpoint answers `limit = 0` with a successful empty array. -/
theorem c9_nonpositive_limit_empty (sinv : ℤ → ℚ) (wd : ℕ → WeatherJitter)
    (sd fd : ℕ → SolarJitter) (ed : ℕ → ExampleJitter) (now limit : ℤ)
    (h : limit ≤ 0) :
    generate_weather_data sinv wd now limit = [] ∧
    generate_realtime_predictions sinv sd now limit = [] ∧
    generate_forecast_predictions sinv fd now limit = [] ∧
    generate_sample_weather_data ed now limit "forecast" = [] ∧
    example_get_weather_data ed now limit = Except.ok [] := by
  have hz : limit.toNat = 0 := Int.toNat_of_nonpos h
  refine ⟨?_, ?_, ?_, ?_, ?_⟩ <;>
    simp [generate_weather_data, generate_realtime_predictions,
      generate_forecast_predictions, generate_sample_weather_data,
      example_get_weather_data, hz]

/-- Witness for C9 at `limit = 0`. -/
theorem c9_witness :
    (0 : ℤ) ≤ 0 ∧
    example_get_weather_data (fun _ => ⟨0, 0, 0, 0, 0, 0⟩) 0 0 = Except.ok [] :=
  ⟨by decide,
   (c9_nonpositive_limit_empty (fun _ => 0) (fun _ => ⟨0, 0, 0, 0, 0, 0⟩)
      (fun _ => ⟨0, 0, 0, 0, 0⟩) (fun _ => ⟨0, 0, 0, 0, 0⟩)
      (fun _ => ⟨0, 0, 0, 0, 0, 0⟩) 0 0 (by decide)).2.2.2.2⟩

/-- C10: the `/weather-data` handler of the CORS-fix weather variant
ignores its `data_type` query parameter — with the same limit, clock
and draws, any two values give identical responses — and every
generated record's `data_type` field is the constant `"forecast"`. -/
theorem c10_data_type_ignored (sinv : ℤ → ℚ) (wd : ℕ → WeatherJitter)
    (now limit : ℤ) (dt1 dt2 : String) :
    get_weather_data_alt sinv wd now limit dt1 =
      get_weather_data_alt sinv wd now limit dt2 ∧
    ∀ (i : ℕ) (h : i < (generate_weather_data sinv wd now limit).length),
      ((generate_weather_data sinv wd now limit).get ⟨i, h⟩).data_type =
        "forecast" := by
  refine ⟨rfl, ?_⟩
  intro i h
  simp [generate_weather_data]

/-- Witness for C10 at `limit = 1` with distinct `data_type` values. -/
theorem c10_witness :
    get_weather_data_alt (fun _ => 0) (fun _ => ⟨0, 0, 0, 0, 0, 0⟩) 0 1 "current" =
      get_weather_data_alt (fun _ => 0) (fun _ => ⟨0, 0, 0, 0, 0, 0⟩) 0 1 "history" ∧
    ((generate_weather_data (fun _ => 0) (fun _ => ⟨0, 0, 0, 0, 0, 0⟩) 0 1).get
        ⟨0, by decide⟩).data_type = "forecast" :=
  ⟨(c10_data_type_ignored (fun _ => 0) (fun _ => ⟨0, 0, 0, 0, 0, 0⟩) 0 1
      "current" "history").1,
   (c10_data_type_ignored (fun _ => 0) (fun _ => ⟨0, 0, 0, 0, 0, 0⟩) 0 1
      "current" "history").2 0 (by decide)⟩

/-- C7: for every `limit` in `[1, 100]`, `generate_forecast_predictions`
places the record at index `i` at `now + i` hours (consecutive
timestamps ascend by exactly 60 minutes) and every record's
`forecast_type` is the constant `"hourly"`. -/
theorem c7_forecast_hourly (sinv : ℤ → ℚ) (fd : ℕ → SolarJitter)
    (now limit : ℤ) (h1 : 1 ≤ limit) (h2 : limit ≤ 100) :
    (∀ (i : ℕ) (h : i < (generate_forecast_predictions sinv fd now limit).length),
      ((generate_forecast_predictions sinv fd now limit).get ⟨i, h⟩).timestamp =
        now + 60 * (i : ℤ)) ∧
    (∀ (i : ℕ) (h : i + 1 < (generate_forecast_predictions sinv fd now limit).length)
        (h' : i < (generate_forecast_predictions sinv fd now limit).length),
      ((generate_forecast_predictions sinv fd now limit).get ⟨i + 1, h⟩).timestamp =
        ((generate_forecast_predictions sinv fd now limit).get ⟨i, h'⟩).timestamp + 60) ∧
    (∀ (i : ℕ) (h : i < (generate_forecast_predictions sinv fd now limit).length),
      ((generate_forecast_predictions sinv fd now limit).get ⟨i, h⟩).forecast_type =
        some "hourly") := by
  refine ⟨?_, ?_, ?_⟩
  · intro i h
    simp [generate_forecast_predictions]
  · intro i h h'
    simp only [generate_forecast_predictions, List.get_eq_getElem,
      List.getElem_map, List.getElem_range]
    push_cast
    ring
  · intro i h
    simp [generate_forecast_predictions]

/-- Witness for C7 at `limit = 3`, `now = 0`: second record 60 minutes
after the first, `forecast_type = "hourly"`. -/
theorem c7_witness :
    ((1 : ℤ) ≤ 3 ∧ (3 : ℤ) ≤ 100) ∧
    ((generate_forecast_predictions (fun _ => 0) (fun _ => ⟨0, 0, 0, 0, 0⟩) 0 3).get
        ⟨1, by decide⟩).timestamp = 0 + 60 * (1 : ℤ) ∧
    ((generate_forecast_predictions (fun _ => 0) (fun _ => ⟨0, 0, 0, 0, 0⟩) 0 3).get
        ⟨0, by decide⟩).forecast_type = some "hourly" :=
  ⟨⟨by decide, by decide⟩,
   (c7_forecast_hourly (fun _ => 0) (fun _ => ⟨0, 0, 0, 0, 0⟩) 0 3
      (by decide) (by decide)).1 1 (by decide),
   (c7_forecast_hourly (fun _ => 0) (fun _ => ⟨0, 0, 0, 0, 0⟩) 0 3
      (by decide) (by decide)).2.2 0 (by decide)⟩

/-- C3: in both solar generators, whenever the hour of a record's
timestamp falls outside the daylight window `[6, 18]`, the record's
`predicted_power_kw` and nested `direct_normal_irradiance` are both
exactly 0, for every sine table and every jitter draw. -/
theorem c3_night_is_zero (sinv : ℤ → ℚ) (sd fd : ℕ → SolarJitter)
    (now limit : ℤ) :
    (∀ (i : ℕ) (h : i < (generate_realtime_predictions sinv sd now limit).length),
      ¬(6 ≤ hourOf (((generate_realtime_predictions sinv sd now limit).get
            ⟨i, h⟩).timestamp) ∧
        hourOf (((generate_realtime_predictions sinv sd now limit).get
            ⟨i, h⟩).timestamp) ≤ 18) →
      ((generate_realtime_predictions sinv sd now limit).get
          ⟨i, h⟩).predicted_power_kw = 0 ∧
      ((generate_realtime_predictions sinv sd now limit).get
          ⟨i, h⟩).weather_conditions.direct_normal_irradiance = 0) ∧
    (∀ (i : ℕ) (h : i < (generate_forecast_predictions sinv fd now limit).length),
      ¬(6 ≤ hourOf (((generate_forecast_predictions sinv fd now limit).get
            ⟨i, h⟩).timestamp) ∧
        hourOf (((generate_forecast_predictions sinv fd now limit).get
            ⟨i, h⟩).timestamp) ≤ 18) →
      ((generate_forecast_predictions sinv fd now limit).get
          ⟨i, h⟩).predicted_power_kw = 0 ∧
      ((generate_forecast_predictions sinv fd now limit).get
          ⟨i, h⟩).weather_conditions.direct_normal_irradiance = 0) := by
  constructor
  · intro i h hn
    simp only [generate_realtime_predictions, List.get_eq_getElem,
      List.getElem_map, List.getElem_range] at hn ⊢
    rw [if_neg hn, if_neg hn]
    exact ⟨roundTo2_zero, roundTo1_zero⟩
  · intro i h hn
    simp only [generate_forecast_predictions, List.get_eq_getElem,
      List.getElem_map, List.getElem_range] at hn ⊢
    rw [if_neg hn, if_neg hn]
    exact ⟨roundTo2_zero, roundTo1_zero⟩

/-- Witness for C3 at `now = 0` (midnight, hour 0), `limit = 1`, a sine
table that is constantly 1 and unit jitter, so the daytime branch would
have produced a nonzero power. -/
theorem c3_witness :
    (¬(6 ≤ hourOf (((generate_realtime_predictions (fun _ => 1)
          (fun _ => ⟨1, 1, 1, 1, 1⟩) 0 1).get ⟨0, by decide⟩).timestamp) ∧
       hourOf (((generate_realtime_predictions (fun _ => 1)
          (fun _ => ⟨1, 1, 1, 1, 1⟩) 0 1).get ⟨0, by decide⟩).timestamp) ≤ 18)) ∧
    ((generate_realtime_predictions (fun _ => 1)
        (fun _ => ⟨1, 1, 1, 1, 1⟩) 0 1).get ⟨0, by decide⟩).predicted_power_kw = 0 ∧
    ((generate_realtime_predictions (fun _ => 1)
        (fun _ => ⟨1, 1, 1, 1, 1⟩) 0 1).get
        ⟨0, by decide⟩).weather_conditions.direct_normal_irradiance = 0 :=
  ⟨by decide,
   ((c3_night_is_zero (fun _ => 1) (fun _ => ⟨1, 1, 1, 1, 1⟩)
       (fun _ => ⟨1, 1, 1, 1, 1⟩) 0 1).1 0 (by decide) (by decide)).1,
   ((c3_night_is_zero (fun _ => 1) (fun _ => ⟨1, 1, 1, 1, 1⟩)
       (fun _ => ⟨1, 1, 1, 1, 1⟩) 0 1).1 0 (by decide) (by decide)).2⟩

/-- C4: in every generator and for every jitter draw whatsoever, the
`predicted_power_kw` and `direct_normal_irradiance` fields are
nonnegative: the `max(0, ·)` clamp is applied after the jitter is
added (and rounding preserves nonnegativity). -/
theorem c4_power_irradiance_nonneg (sinv : ℤ → ℚ) (wd : ℕ → WeatherJitter)
    (sd fd : ℕ → SolarJitter) (ed : ℕ → ExampleJitter) (now limit : ℤ) :
    (∀ (i : ℕ) (h : i < (generate_weather_data sinv wd now limit).length),
      0 ≤ ((generate_weather_data sinv wd now limit).get
          ⟨i, h⟩).direct_normal_irradiance) ∧
    (∀ (i : ℕ) (h : i < (generate_realtime_predictions sinv sd now limit).length),
      0 ≤ ((generate_realtime_predictions sinv sd now limit).get
          ⟨i, h⟩).predicted_power_kw ∧
      0 ≤ ((generate_realtime_predictions sinv sd now limit).get
          ⟨i, h⟩).weather_conditions.direct_normal_irradiance) ∧
    (∀ (i : ℕ) (h : i < (generate_forecast_predictions sinv fd now limit).length),
      0 ≤ ((generate_forecast_predictions sinv fd now limit).get
          ⟨i, h⟩).predicted_power_kw ∧
      0 ≤ ((generate_forecast_predictions sinv fd now limit).get
          ⟨i, h⟩).weather_conditions.direct_normal_irradiance) ∧
    (∀ (i : ℕ) (h : i < (generate_sample_weather_data ed now limit "forecast").length),
      0 ≤ ((generate_sample_weather_data ed now limit "forecast").get
          ⟨i, h⟩).direct_normal_irradiance) := by
  refine ⟨?_, ?_, ?_, ?_⟩
  · intro i h
    simp only [generate_weather_data, List.get_eq_getElem,
      List.getElem_map, List.getElem_range]
    apply roundTo1_nonneg
    split
    · exact le_max_left 0 _
    · exact le_refl 0
  · intro i h
    simp only [generate_realtime_predictions, List.get_eq_getElem,
      List.getElem_map, List.getElem_range]
    constructor
    · apply roundTo2_nonneg
      split
      · exact le_max_left 0 _
      · exact le_refl 0
    · apply roundTo1_nonneg
      split
      · exact le_max_left 0 _
      · exact le_refl 0
  · intro i h
    simp only [generate_forecast_predictions, List.get_eq_getElem,
      List.getElem_map, List.getElem_range]
    constructor
    · apply roundTo2_nonneg
      split
      · exact le_max_left 0 _
      · exact le_refl 0
    · apply roundTo1_nonneg
      split
      · exact le_max_left 0 _
      · exact le_refl 0
  · intro i h
    simp only [generate_sample_weather_data, List.get_eq_getElem,
      List.getElem_map, List.getElem_range]
    exact roundTo1_nonneg (le_max_left 0 _)

/-- Witness for C4 at `now = 480` (hour 8, daytime), `limit = 1`, a
sine table that is constantly 1 and unit jitter draws. -/
theorem c4_witness :
    (0 : ℚ) ≤ ((generate_weather_data (fun _ => 1) (fun _ => ⟨1, 1, 1, 1, 1, 1⟩)
        480 1).get ⟨0, by decide⟩).direct_normal_irradiance ∧
    (0 : ℚ) ≤ ((generate_realtime_predictions (fun _ => 1) (fun _ => ⟨1, 1, 1, 1, 1⟩)
        480 1).get ⟨0, by decide⟩).predicted_power_kw ∧
    (0 : ℚ) ≤ ((generate_forecast_predictions (fun _ => 1) (fun _ => ⟨1, 1, 1, 1, 1⟩)
        480 1).get ⟨0, by decide⟩).predicted_power_kw ∧
    (0 : ℚ) ≤ ((generate_sample_weather_data (fun _ => ⟨1, 1, 1, 1, 1, 1⟩)
        480 1 "forecast").get ⟨0, by decide⟩).direct_normal_irradiance :=
  ⟨(c4_power_irradiance_nonneg (fun _ => 1) (fun _ => ⟨1, 1, 1, 1, 1, 1⟩)
      (fun _ => ⟨1, 1, 1, 1, 1⟩) (fun _ => ⟨1, 1, 1, 1, 1⟩)
      (fun _ => ⟨1, 1, 1, 1, 1, 1⟩) 480 1).1 0 (by decide),
   ((c4_power_irradiance_nonneg (fun _ => 1) (fun _ => ⟨1, 1, 1, 1, 1, 1⟩)
      (fun _ => ⟨1, 1, 1, 1, 1⟩) (fun _ => ⟨1, 1, 1, 1, 1⟩)
      (fun _ => ⟨1, 1, 1, 1, 1, 1⟩) 480 1).2.1 0 (by decide)).1,
   ((c4_power_irradiance_nonneg (fun _ => 1) (fun _ => ⟨1, 1, 1, 1, 1, 1⟩)
      (fun _ => ⟨1, 1, 1, 1, 1⟩) (fun _ => ⟨1, 1, 1, 1, 1⟩)
      (fun _ => ⟨1, 1, 1, 1, 1, 1⟩) 480 1).2.2.1 0 (by decide)).1,
   (c4_power_irradiance_nonneg (fun _ => 1) (fun _ => ⟨1, 1, 1, 1, 1, 1⟩)
      (fun _ => ⟨1, 1, 1, 1, 1⟩) (fun _ => ⟨1, 1, 1, 1, 1⟩)
      (fun _ => ⟨1, 1, 1, 1, 1, 1⟩) 480 1).2.2.2 0 (by decide)⟩

/-- C5: for draws within the uniform bounds, every variant's
`relative_humidity_2m` lies within its documented clamped bounds
(`[30, 90]` for the weather and realtime variants and the example
variant, `[35, 85]` for the forecast variant) and every variant's
`cloud_cover` lies within its documented bounds (`[0, 100]` for the
weather and example variants, `[0, 60]` realtime, `[0, 50]`
forecast). -/
theorem c5_humidity_cloud_bounds (sinv : ℤ → ℚ) (wd : ℕ → WeatherJitter)
    (sd fd : ℕ → SolarJitter) (ed : ℕ → ExampleJitter) (now limit : ℤ)
    (hw : ∀ i, (wd i).inRange) (hs : ∀ i, (sd i).realtimeInRange)
    (hf : ∀ i, (fd i).forecastInRange) (he : ∀ i, (ed i).inRange) :
    (∀ (i : ℕ) (h : i < (generate_weather_data sinv wd now limit).length),
      ((30 : ℚ) ≤ ((generate_weather_data sinv wd now limit).get
          ⟨i, h⟩).relative_humidity_2m ∧
        ((generate_weather_data sinv wd now limit).get
          ⟨i, h⟩).relative_humidity_2m ≤ 90) ∧
      ((0 : ℚ) ≤ ((generate_weather_data sinv wd now limit).get
          ⟨i, h⟩).cloud_cover ∧
        ((generate_weather_data sinv wd now limit).get
          ⟨i, h⟩).cloud_cover ≤ 100)) ∧
    (∀ (i : ℕ) (h : i < (generate_realtime_predictions sinv sd now limit).length),
      ((30 : ℚ) ≤ ((generate_realtime_predictions sinv sd now limit).get
          ⟨i, h⟩).weather_conditions.relative_humidity_2m ∧
        ((generate_realtime_predictions sinv sd now limit).get
          ⟨i, h⟩).weather_conditions.relative_humidity_2m ≤ 90) ∧
      ((0 : ℚ) ≤ ((generate_realtime_predictions sinv sd now limit).get
          ⟨i, h⟩).weather_conditions.cloud_cover ∧
        ((generate_realtime_predictions sinv sd now limit).get
          ⟨i, h⟩).weather_conditions.cloud_cover ≤ 60)) ∧
    (∀ (i : ℕ) (h : i < (generate_forecast_predictions sinv fd now limit).length),
      ((35 : ℚ) ≤ ((generate_forecast_predictions sinv fd now limit).get
          ⟨i, h⟩).weather_conditions.relative_humidity_2m ∧
        ((generate_forecast_predictions sinv fd now limit).get
          ⟨i, h⟩).weather_conditions.relative_humidity_2m ≤ 85) ∧
      ((0 : ℚ) ≤ ((generate_forecast_predictions sinv fd now limit).get
          ⟨i, h⟩).weather_conditions.cloud_cover ∧
        ((generate_forecast_predictions sinv fd now limit).get
          ⟨i, h⟩).weather_conditions.cloud_cover ≤ 50)) ∧
    (∀ (i : ℕ) (h : i < (generate_sample_weather_data ed now limit "forecast").length),
      ((30 : ℚ) ≤ ((generate_sample_weather_data ed now limit "forecast").get
          ⟨i, h⟩).relative_humidity_2m ∧
        ((generate_sample_weather_data ed now limit "forecast").get
          ⟨i, h⟩).relative_humidity_2m ≤ 90) ∧
      ((0 : ℚ) ≤ ((generate_sample_weather_data ed now limit "forecast").get
          ⟨i, h⟩).cloud_cover ∧
        ((generate_sample_weather_data ed now limit "forecast").get
          ⟨i, h⟩).cloud_cover ≤ 100)) := by
  refine ⟨?_, ?_, ?_, ?_⟩
  · intro i h
    obtain ⟨-, -, hh1, hh2, -, -, -, -, hc1, hc2, -, -⟩ := hw i
    simp only [generate_weather_data, List.get_eq_getElem,
      List.getElem_map, List.getElem_range]
    refine ⟨⟨?_, ?_⟩, ?_, ?_⟩
    · exact_mod_cast le_roundTo1 30 (by push_cast; exact le_max_left _ _)
    · exact_mod_cast roundTo1_le 90
        (by push_cast; exact max_le (by norm_num) (min_le_left _ _))
    · exact roundTo1_nonneg hc1
    · exact_mod_cast roundTo1_le 100 (by push_cast; linarith)
  · intro i h
    obtain ⟨-, -, -, -, hh1, hh2, -, -, hc1, hc2⟩ := hs i
    simp only [generate_realtime_predictions, List.get_eq_getElem,
      List.getElem_map, List.getElem_range]
    refine ⟨⟨?_, ?_⟩, ?_, ?_⟩
    · exact_mod_cast le_roundTo1 30 (by push_cast; exact le_max_left _ _)
    · exact_mod_cast roundTo1_le 90
        (by push_cast; exact max_le (by norm_num) (min_le_left _ _))
    · exact roundTo1_nonneg hc1
    · exact_mod_cast roundTo1_le 60 (by push_cast; linarith)
  · intro i h
    obtain ⟨-, -, -, -, hh1, hh2, -, -, hc1, hc2⟩ := hf i
    simp only [generate_forecast_predictions, List.get_eq_getElem,
      List.getElem_map, List.getElem_range]
    refine ⟨⟨?_, ?_⟩, ?_, ?_⟩
    · exact_mod_cast le_roundTo1 35 (by push_cast; exact le_max_left _ _)
    · exact_mod_cast roundTo1_le 85
        (by push_cast; exact max_le (by norm_num) (min_le_left _ _))
    · exact roundTo1_nonneg hc1
    · exact_mod_cast roundTo1_le 50 (by push_cast; linarith)
  · intro i h
    obtain ⟨-, -, hh1, hh2, -, -, -, -, hc1, hc2, -, -⟩ := he i
    simp only [generate_sample_weather_data, List.get_eq_getElem,
      List.getElem_map, List.getElem_range]
    refine ⟨⟨?_, ?_⟩, ?_, ?_⟩
    · refine le_of_eq_of_le ?_ (le_roundTo1 30 ?_)
      · norm_num
      · push_cast
        have h40 : (40 : ℚ) ≤ min 100 (60 + (ed i).hum_j) :=
          le_min (by norm_num) (by linarith)
        exact le_trans (by linarith) (le_max_right (0 : ℚ) _)
    · exact_mod_cast roundTo1_le 90
        (by push_cast
            exact max_le (by norm_num)
              (le_trans (min_le_right _ _) (by linarith)))
    · exact roundTo1_nonneg (le_max_left 0 _)
    · exact_mod_cast roundTo1_le 100
        (by push_cast; exact max_le (by norm_num) (min_le_left _ _))

/-- Witness for C5: zero draws (inside every uniform range) at
`limit = 1`, `now = 0`; the weather record's humidity lies in
`[30, 90]` and the forecast record's cloud cover in `[0, 50]`. -/
theorem c5_witness :
    WeatherJitter.inRange ⟨0, 0, 0, 0, 0, 0⟩ ∧
    SolarJitter.realtimeInRange ⟨0, 0, 0, 0, 0⟩ ∧
    SolarJitter.forecastInRange ⟨0, 0, 0, 0, 0⟩ ∧
    ExampleJitter.inRange ⟨0, 0, 0, 0, 0, 0⟩ ∧
    ((30 : ℚ) ≤ ((generate_weather_data (fun _ => 0) (fun _ => ⟨0, 0, 0, 0, 0, 0⟩)
        0 1).get ⟨0, by decide⟩).relative_humidity_2m ∧
      ((generate_weather_data (fun _ => 0) (fun _ => ⟨0, 0, 0, 0, 0, 0⟩)
        0 1).get ⟨0, by decide⟩).relative_humidity_2m ≤ 90) ∧
    ((0 : ℚ) ≤ ((generate_forecast_predictions (fun _ => 0) (fun _ => ⟨0, 0, 0, 0, 0⟩)
        0 1).get ⟨0, by decide⟩).weather_conditions.cloud_cover ∧
      ((generate_forecast_predictions (fun _ => 0) (fun _ => ⟨0, 0, 0, 0, 0⟩)
        0 1).get ⟨0, by decide⟩).weather_conditions.cloud_cover ≤ 50) :=
  ⟨by norm_num [WeatherJitter.inRange],
   by norm_num [SolarJitter.realtimeInRange],
   by norm_num [SolarJitter.forecastInRange],
   by norm_num [ExampleJitter.inRange],
   (c5_humidity_cloud_bounds (fun _ => 0) (fun _ => ⟨0, 0, 0, 0, 0, 0⟩)
      (fun _ => ⟨0, 0, 0, 0, 0⟩) (fun _ => ⟨0, 0, 0, 0, 0⟩)
      (fun _ => ⟨0, 0, 0, 0, 0, 0⟩) 0 1
      (fun _ => by norm_num [WeatherJitter.inRange])
      (fun _ => by norm_num [SolarJitter.realtimeInRange])
      (fun _ => by norm_num [SolarJitter.forecastInRange])
      (fun _ => by norm_num [ExampleJitter.inRange])).1 0 (by decide) |>.1,
   ((c5_humidity_cloud_bounds (fun _ => 0) (fun _ => ⟨0, 0, 0, 0, 0, 0⟩)
      (fun _ => ⟨0, 0, 0, 0, 0⟩) (fun _ => ⟨0, 0, 0, 0, 0⟩)
      (fun _ => ⟨0, 0, 0, 0, 0, 0⟩) 0 1
      (fun _ => by norm_num [WeatherJitter.inRange])
      (fun _ => by norm_num [SolarJitter.realtimeInRange])
      (fun _ => by norm_num [SolarJitter.forecastInRange])
      (fun _ => by norm_num [ExampleJitter.inRange])).2.2.1 0 (by decide)).2⟩
